import Mathlib

/-!
Shallow embedding of the idwall API client (`idwall.py`) and proofs about its
request construction, pagination, and response-field extraction.

JSON values are modelled by an inductive `Json`; Python dicts are association
lists with unique keys, mutated in insertion order exactly as CPython does.
Each Python method that performs HTTP traffic is embedded as a function that is
additionally parameterised by the HTTP layer (`http : Request → Response`) and
returns the list of requests it sent alongside its outcome, so that claims
about "exactly one request" or "pages 2..N in order" are statements about that
trace.  Python exceptions are modelled by `Except PyError`.
-/

namespace Idwall

/-- JSON values as exchanged with the remote API. -/
inductive Json where
  | null : Json
  | bool : Bool → Json
  | num : Int → Json
  | str : String → Json
  | arr : List Json → Json
  | obj : List (String × Json) → Json

/-- Python exceptions that the embedded code can raise. -/
inductive PyError where
  | keyError : PyError
  | indexError : PyError
  | typeError : PyError
  | attributeError : PyError
  | nameError : PyError
  | valueError : PyError
  | jsonDecodeError : PyError
  | httpError : Nat → PyError
deriving DecidableEq, Repr

/-- First value bound to the key in an association list (Python dict lookup;
keys are unique in a real dict, so first = only). -/
def lookup? : List (String × Json) → String → Option Json
  | [], _ => none
  | (k', v) :: rest, k => if k' = k then some v else lookup? rest k

/-- Python `d[k] = v` on a dict: replace the value in place if the key is
present (keeping its position, as CPython dicts do), else append. -/
def dictSet : List (String × Json) → String → Json → List (String × Json)
  | [], k, v => [(k, v)]
  | (k', v') :: rest, k, v =>
    if k' = k then (k', v) :: rest else (k', v') :: dictSet rest k v

/-- Python `d.update(kw)`: set each key of `kw` in order. -/
def dictUpdate (d kw : List (String × Json)) : List (String × Json) :=
  kw.foldl (fun acc p => dictSet acc p.1 p.2) d

/-- Python `x == s` for a string literal `s`: only a string with the same
contents compares equal; any other value (number, bool, list, ...) is simply
unequal, never an error. -/
def Json.eqStr : Json → String → Bool
  | .str s, t => s = t
  | _, _ => false

/-- Python substring test `sub in s`. -/
def strContains (s sub : String) : Bool :=
  if sub = "" then true else (s.splitOn sub).length > 1

/-- Python `k in j` for a string `k`: key membership on a dict, element
membership on a list, substring test on a string, TypeError otherwise. -/
def Json.hasKey : Json → String → Except PyError Bool
  | .obj l, k => .ok (lookup? l k).isSome
  | .arr xs, k => .ok (xs.any (fun e => e.eqStr k))
  | .str s, k => .ok (strContains s k)
  | _, _ => .error .typeError

/-- Python `j[k]` for a string key: dict indexing.  KeyError when the key is
absent, and also on a dict-like mismatch such as `d[k]` on a dict without that
key; TypeError when the value is not subscriptable by a string. -/
def Json.getKey : Json → String → Except PyError Json
  | .obj l, k =>
    match lookup? l k with
    | some v => .ok v
    | none => .error .keyError
  | _, _ => .error .typeError

/-- Python `j[i]` for a nonnegative integer index: list indexing (IndexError
out of range), one-character string for string indexing, KeyError on a dict
whose keys are strings, TypeError otherwise. -/
def Json.getIdx : Json → Nat → Except PyError Json
  | .arr xs, i =>
    match xs.get? i with
    | some v => .ok v
    | none => .error .indexError
  | .str s, i =>
    match s.toList.get? i with
    | some c => .ok (.str (String.mk [c]))
    | none => .error .indexError
  | .obj _, _ => .error .keyError
  | _, _ => .error .typeError

/-- Python `j.get(k, d)` — a dict method; AttributeError on any non-dict. -/
def Json.pyGet : Json → String → Json → Except PyError Json
  | .obj l, k, d => .ok ((lookup? l k).getD d)
  | _, _, _ => .error .attributeError

/-- Python `j.get(k)` (default `None`). -/
def Json.pyGetNone (j : Json) (k : String) : Except PyError Json :=
  j.pyGet k .null

/-- Python `int(x)`: integers pass through, booleans become 0/1, numeric
strings parse (ValueError otherwise), any other value is a TypeError. -/
def pyInt : Json → Except PyError Int
  | .num n => .ok n
  | .bool b => .ok (if b then 1 else 0)
  | .str s =>
    match s.trim.toInt? with
    | some n => .ok n
    | none => .error .valueError
  | _ => .error .typeError

/-- Python `l.extend(x)` on a list `l`: lists append their elements, strings
their characters, dicts their keys; non-iterables raise TypeError. -/
def pyExtendList (l : List Json) : Json → Except PyError (List Json)
  | .arr xs => .ok (l ++ xs)
  | .str s => .ok (l ++ s.toList.map (fun c => .str (String.mk [c])))
  | .obj kvs => .ok (l ++ kvs.map (fun p => Json.str p.1))
  | _ => .error .typeError

/-- Python `j.extend(x)` where `j` is an arbitrary value: only lists have an
`extend` method (AttributeError otherwise). -/
def Json.extendWith : Json → Json → Except PyError Json
  | .arr l, x => (pyExtendList l x).map .arr
  | _, _ => .error .attributeError

/-- An HTTP request as assembled by
requests.request(method, url, headers=self.headers, json=data, params=params). -/
structure Request where
  method : String
  url : String
  headers : List (String × String)
  body : Option Json
  params : Option (List (String × Json))

/-- What the HTTP layer hands back: the status code and the JSON parse of the
body (`none` when the body is not valid JSON). -/
structure Response where
  status : Nat
  jsonBody : Option Json

/-- The fields IdwallAuth.__init__ stores on the client object. -/
structure IdwallAuth where
  token : String

/-- self.base_url, fixed by __init__. -/
def IdwallAuth.base_url (_ : IdwallAuth) : String := "https://api-v2.idwall.co/"

/-- self.headers, built by __init__ from the token. -/
def IdwallAuth.headers (a : IdwallAuth) : List (String × String) :=
  [("Content-Type", "application/json"), ("Authorization", a.token)]

/-- A plain relative endpoint: no leading slash, no scheme/query/fragment
characters.  These are the only shapes this client ever passes to urljoin. -/
def plainRelative (p : String) : Bool :=
  (match p.toList with
   | c :: _ => !(c = '/')
   | [] => true) && !(p.toList.any (fun c => c = ':' || c = '?' || c = '#'))

/-- urllib.parse.urljoin restricted to this client's use: the base URL ends in
a slash and the endpoint is a plain relative path, so the join is
concatenation. -/
def urljoin (base endpoint : String) : String := base ++ endpoint

/-- requests.Response.raise_for_status: raises HTTPError exactly for status
codes in [400, 600) (client and server errors); 1xx, 2xx and 3xx statuses do
not raise. -/
def raiseForStatus (r : Response) : Except PyError Unit :=
  if 400 ≤ r.status ∧ r.status < 600 then .error (.httpError r.status) else .ok ()

/-- requests.Response.json(): the parsed body, or JSONDecodeError when the
body is not valid JSON. -/
def responseJson (r : Response) : Except PyError Json :=
  match r.jsonBody with
  | some j => .ok j
  | none => .error .jsonDecodeError

/-- IdwallAuth.make_request: join the URL, send one request carrying the
stored headers and the given body/params, re-raise the HTTPError coming from
raise_for_status, and otherwise return response.json().  The first component
is the trace of requests sent. -/
def make_request (a : IdwallAuth) (http : Request → Response)
    (method endpoint : String) (data : Option Json)
    (params : Option (List (String × Json))) :
    List Request × Except PyError Json :=
  let req : Request := ⟨method, urljoin a.base_url endpoint, a.headers, data, params⟩
  let resp := http req
  ([req], (raiseForStatus resp).bind (fun _ => responseJson resp))

/-- Shared body of People.get_person_details and Companies.get_company_details:
GET {base}/{ident} with params {'rows': size, 'page': page} updated by
kwargs. -/
def get_details (base : String) (a : IdwallAuth) (http : Request → Response)
    (ident : String) (size page : Int) (kwargs : List (String × Json)) :
    List Request × Except PyError Json :=
  let payload := dictUpdate [("rows", .num size), ("page", .num page)] kwargs
  make_request a http "GET" (base ++ "/" ++ ident) none (some payload)

/-- The field read shared by is_person_approved and is_company_approved:
details['result']['dados']['relatorios'][0]['resultado'] == 'VALID'. -/
def approvedFrom (details : Json) : Except PyError Bool := do
  let r ← details.getKey "result"
  let dados ← r.getKey "dados"
  let rel ← dados.getKey "relatorios"
  let first ← rel.getIdx 0
  let st ← first.getKey "resultado"
  pure (st.eqStr "VALID")

/-- The conditional extend inside the all_reports page loop:
if 'result' in rel and 'dados' in rel['result'] then
reports_list.extend(rel['result']['dados']['relatorios']), else keep the
accumulator untouched (the page is skipped). -/
def stepExtend (acc rel : Json) : Except PyError Json := do
  let hasRes ← rel.hasKey "result"
  if hasRes then
    let r ← rel.getKey "result"
    let hasDados ← r.hasKey "dados"
    if hasDados then
      let dados ← r.getKey "dados"
      let recs ← dados.getKey "relatorios"
      acc.extendWith recs
    else pure acc
  else pure acc

/-- The for-loop of all_reports over the remaining pages: one get-details call
per page (rows and size at their defaults, only page varies), extending the
accumulated list after each well-shaped response. -/
def allReportsLoop (base : String) (a : IdwallAuth) (http : Request → Response)
    (ident : String) : List Int → Json → List Request × Except PyError Json
  | [], acc => ([], .ok acc)
  | p :: rest, acc =>
    let pr := get_details base a http ident 25 p []
    match pr.2 with
    | .error e => (pr.1, .error e)
    | .ok rel =>
      match stepExtend acc rel with
      | .error e => (pr.1, .error e)
      | .ok acc' =>
        let next := allReportsLoop base a http ident rest acc'
        (pr.1 ++ next.1, next.2)

/-- Python range(2, n + 1) as a list of Int. -/
def pageRange (n : Int) : List Int :=
  (List.range (n - 1).toNat).map (fun i => 2 + Int.ofNat i)

/-- The leading structure check of all_reports: when
'result' in pd and 'dados' in pd['result'], read
pages = int(pd['result']['paginacao']['total']) and then
reports_list = pd['result']['dados']['relatorios']; the `none` outcome signals
the else branch of the source. -/
def outerCheck (pd : Json) : Except PyError (Option (Int × Json)) := do
  let hasRes ← pd.hasKey "result"
  if hasRes then
    let r ← pd.getKey "result"
    let hasDados ← r.hasKey "dados"
    if hasDados then
      let pag ← r.getKey "paginacao"
      let tot ← pag.getKey "total"
      let pages ← pyInt tot
      let dados ← r.getKey "dados"
      let recs ← dados.getKey "relatorios"
      pure (some (pages, recs))
    else pure none
  else pure none

/-- Shared body of People.all_reports and Companies.all_reports.  The else
branch of the source returns the name reports_list that was never bound,
which raises NameError in Python. -/
def all_reports_core (base : String) (a : IdwallAuth) (http : Request → Response)
    (ident : String) : List Request × Except PyError Json :=
  let pr := get_details base a http ident 25 1 []
  match pr.2 with
  | .error e => (pr.1, .error e)
  | .ok pd =>
    match outerCheck pd with
    | .error e => (pr.1, .error e)
    | .ok none => (pr.1, .error .nameError)
    | .ok (some (pages, reports_list)) =>
      if pages ≥ 2 then
        let next := allReportsLoop base a http ident (pageRange pages) reports_list
        (pr.1 ++ next.1, next.2)
      else (pr.1, .ok reports_list)

/-- The Matrices class: __init__ stores only the auth object. -/
structure Matrices where
  auth : IdwallAuth

/-- Matrices.list_matrices: GET matrizes. -/
def Matrices.list_matrices (self : Matrices) (http : Request → Response) :
    List Request × Except PyError Json :=
  make_request self.auth http "GET" "matrizes" none none

/-- Matrices.list_matrices in explicit object-state-passing form: the method
only reads self and performs no field assignment, so the object state comes
back unchanged. -/
def Matrices.list_matrices_st (self : Matrices) (http : Request → Response) :
    Matrices × (List Request × Except PyError Json) :=
  (self, self.list_matrices http)

/-- The People class: __init__ stores only the auth object. -/
structure People where
  auth : IdwallAuth

/-- People.list_consulted_people: GET pessoas with params
{'rows': size, 'page': page} updated by kwargs.  The Python signature defaults
are size=25, page=1. -/
def People.list_consulted_people (self : People) (http : Request → Response)
    (size page : Int) (kwargs : List (String × Json)) :
    List Request × Except PyError Json :=
  let payload := dictUpdate [("rows", .num size), ("page", .num page)] kwargs
  make_request self.auth http "GET" "pessoas" none (some payload)

/-- People.get_person_details: GET pessoas/{cpf} with the same payload
shape.  Defaults size=25, page=1. -/
def People.get_person_details (self : People) (http : Request → Response)
    (cpf : String) (size page : Int) (kwargs : List (String × Json)) :
    List Request × Except PyError Json :=
  get_details "pessoas" self.auth http cpf size page kwargs

/-- People.get_person_details in explicit object-state-passing form: no field
assignment, the object state comes back unchanged. -/
def People.get_person_details_st (self : People) (http : Request → Response)
    (cpf : String) (size page : Int) (kwargs : List (String × Json)) :
    People × (List Request × Except PyError Json) :=
  (self, self.get_person_details http cpf size page kwargs)

/-- People.is_person_approved: fetch the person details at the signature
defaults and compare the first report's resultado with VALID. -/
def People.is_person_approved (self : People) (http : Request → Response)
    (cpf : String) : List Request × Except PyError Bool :=
  let pr := self.get_person_details http cpf 25 1 []
  (pr.1, pr.2.bind approvedFrom)

/-- People.all_reports(cpf). -/
def People.all_reports (self : People) (http : Request → Response) (cpf : String) :
    List Request × Except PyError Json :=
  all_reports_core "pessoas" self.auth http cpf

/-- The Companies class: __init__ stores only the auth object. -/
structure Companies where
  auth : IdwallAuth

/-- Companies.get_company_details: GET empresas/{cnpj}.  Defaults size=25,
page=1. -/
def Companies.get_company_details (self : Companies) (http : Request → Response)
    (cnpj : String) (size page : Int) (kwargs : List (String × Json)) :
    List Request × Except PyError Json :=
  get_details "empresas" self.auth http cnpj size page kwargs

/-- Companies.is_company_approved: same body as People.is_person_approved over
the empresas endpoint. -/
def Companies.is_company_approved (self : Companies) (http : Request → Response)
    (cnpj : String) : List Request × Except PyError Bool :=
  let pr := self.get_company_details http cnpj 25 1 []
  (pr.1, pr.2.bind approvedFrom)

/-- Companies.all_reports(cnpj). -/
def Companies.all_reports (self : Companies) (http : Request → Response)
    (cnpj : String) : List Request × Except PyError Json :=
  all_reports_core "empresas" self.auth http cnpj

/-- The Reports class: __init__ stores the auth object and the report id. -/
structure Reports where
  auth : IdwallAuth
  report_id : String

/-- Reports.get_report_status: GET relatorios/{id}. -/
def Reports.get_report_status (self : Reports) (http : Request → Response) :
    List Request × Except PyError Json :=
  make_request self.auth http "GET" ("relatorios/" ++ self.report_id) none none

/-- Reports.get_report_status in explicit object-state-passing form: no field
assignment, the object state comes back unchanged. -/
def Reports.get_report_status_st (self : Reports) (http : Request → Response) :
    Reports × (List Request × Except PyError Json) :=
  (self, self.get_report_status http)

/-- Reports.report_data: GET relatorios/{id}/dados. -/
def Reports.report_data (self : Reports) (http : Request → Response) :
    List Request × Except PyError Json :=
  make_request self.auth http "GET" ("relatorios/" ++ self.report_id ++ "/dados")
    none none

/-- Reports.report_finished:
data.get('result', {}).get('status') == 'CONCLUIDO'. -/
def Reports.report_finished (self : Reports) (http : Request → Response) :
    List Request × Except PyError Bool :=
  let pr := self.report_data http
  (pr.1, do
    let data ← pr.2
    let r ← data.pyGet "result" (.obj [])
    let st ← r.pyGetNone "status"
    pure (st.eqStr "CONCLUIDO"))

/-- Reports.report_valid:
data.get('result', {}).get('resultado') == 'VALID'. -/
def Reports.report_valid (self : Reports) (http : Request → Response) :
    List Request × Except PyError Bool :=
  let pr := self.report_data http
  (pr.1, do
    let data ← pr.2
    let r ← data.pyGet "result" (.obj [])
    let st ← r.pyGetNone "resultado"
    pure (st.eqStr "VALID"))

/-- The ReportManager class: __init__ stores the auth object (and the constant
base endpoint relatorios). -/
structure ReportManager where
  auth : IdwallAuth

/-- ReportManager.create_report.  document=None (the signature default) hits
len(document) and raises TypeError before any request is built or sent; a
string document routes to cnpj_numero when its length is 14 and to cpf_numero
otherwise; kwargs are merged into parametros and then merged again into the
top-level payload. -/
def ReportManager.create_report (self : ReportManager) (http : Request → Response)
    (matriz : String) (document : Option String) (kwargs : List (String × Json)) :
    List Request × Except PyError Json :=
  match document with
  | none => ([], .error .typeError)
  | some doc =>
    let parametros :=
      if doc.length = 14 then [("cnpj_numero", Json.str doc)]
      else [("cpf_numero", Json.str doc)]
    let parametros := dictUpdate parametros kwargs
    let payload := dictUpdate
      [("matriz", .str matriz), ("parametros", .obj parametros)] kwargs
    make_request self.auth http "POST" "relatorios" (some (.obj payload)) none

/-- The request make_request assembles from its arguments. -/
def builtRequest (a : IdwallAuth) (method endpoint : String) (data : Option Json)
    (params : Option (List (String × Json))) : Request :=
  ⟨method, urljoin a.base_url endpoint, a.headers, data, params⟩

/-- The request get_details issues for the given page (rows at its default 25
and no extra kwargs, the way the derived helpers call it). -/
def detailRequest (base : String) (a : IdwallAuth) (ident : String) (p : Int) :
    Request :=
  builtRequest a "GET" (base ++ "/" ++ ident) none
    (some [("rows", .num 25), ("page", .num p)])

/-- The HTTP layer answers the given request with a 2xx response whose body
parses to `body`. -/
def Returns (http : Request → Response) (req : Request) (body : Json) : Prop :=
  200 ≤ (http req).status ∧ (http req).status < 300 ∧ (http req).jsonBody = some body

/-- A details body whose envelope reaches result.dados.relatorios = `rel`
(objects along the path). -/
def HasReports (body rel : Json) : Prop :=
  ∃ bl rl dl, body = .obj bl ∧
    lookup? bl "result" = some (.obj rl) ∧
    lookup? rl "dados" = some (.obj dl) ∧
    lookup? dl "relatorios" = some rel

/-- A page body carrying the expected envelope with record list `recs`. -/
def WellFormedPage (body : Json) (recs : List Json) : Prop :=
  ∃ bl rl dl, body = .obj bl ∧
    lookup? bl "result" = some (.obj rl) ∧
    lookup? rl "dados" = some (.obj dl) ∧
    lookup? dl "relatorios" = some (.arr recs)

/-- A page body missing the envelope keys that the all_reports code checks
for: either no result key at all, or a result object without dados. -/
def MalformedPage (body : Json) : Prop :=
  ∃ bl, body = .obj bl ∧
    (lookup? bl "result" = none ∨
     ∃ rl, lookup? bl "result" = some (.obj rl) ∧ lookup? rl "dados" = none)

/-- A first-page body: well formed and declaring total page count `N` under
result.paginacao.total. -/
def WellFormedFirst (body : Json) (N : Int) (recs : List Json) : Prop :=
  ∃ bl rl dl pl, body = .obj bl ∧
    lookup? bl "result" = some (.obj rl) ∧
    lookup? rl "dados" = some (.obj dl) ∧
    lookup? rl "paginacao" = some (.obj pl) ∧
    lookup? pl "total" = some (.num N) ∧
    lookup? dl "relatorios" = some (.arr recs)

/-- Concrete client objects used by the closed witness and counterexample
theorems below. -/
def wAuth : IdwallAuth := ⟨"tok"⟩

def wPeople : People := ⟨wAuth⟩

def wCompanies : Companies := ⟨wAuth⟩

def wReports : Reports := ⟨wAuth, "55"⟩

def wRM : ReportManager := ⟨wAuth⟩

/-- A backend always answering 200 with an empty JSON object. -/
def wHttpOk : Request → Response := fun _ => ⟨200, some (.obj [])⟩

/-- A backend always answering 404 with an unparseable body. -/
def wHttp404 : Request → Response := fun _ => ⟨404, none⟩

/-- A backend always answering 304 Not Modified with a JSON body. -/
def cHttp304 : Request → Response := fun _ => ⟨304, some (.str "cached")⟩

/-- A details body with exactly one report, whose resultado is `v`. -/
def wDetails (v : Json) : Json :=
  .obj [("result", .obj [("dados", .obj [("relatorios",
    .arr [.obj [("resultado", v)]])])])]

/-- A backend whose only report has resultado VALID. -/
def wHttpApproved : Request → Response := fun _ => ⟨200, some (wDetails (.str "VALID"))⟩

/-- A backend whose only report has resultado INVALID. -/
def wHttpRejected : Request → Response := fun _ => ⟨200, some (wDetails (.str "INVALID"))⟩

/-- First page of the 3-page mock: records a, b; declared total 3. -/
def wFirstBody : Json :=
  .obj [("result", .obj [("dados", .obj [("relatorios", .arr [.str "a", .str "b"])]),
    ("paginacao", .obj [("total", .num 3)])])]

/-- A well-formed later page carrying the given records. -/
def wPageBody (recs : List Json) : Json :=
  .obj [("result", .obj [("dados", .obj [("relatorios", .arr recs)])])]

/-- The 3-page mock backend, dispatching on the page query parameter. -/
def wHttp3 : Request → Response := fun r =>
  match r.params with
  | some [("rows", _), ("page", Json.num 1)] => ⟨200, some wFirstBody⟩
  | some [("rows", _), ("page", Json.num 2)] => ⟨200, some (wPageBody [.str "c"])⟩
  | some [("rows", _), ("page", Json.num 3)] => ⟨200, some (wPageBody [.str "d"])⟩
  | _ => ⟨404, none⟩

/-- Per-page record lists of the 3-page mock. -/
def wContrib : Int → List Json := fun p =>
  if p = 2 then [.str "c"] else if p = 3 then [.str "d"] else []

/-- A backend answering 200 with an object missing the result key. -/
def cHttpNoKeys : Request → Response := fun _ => ⟨200, some (.obj [("x", Json.null)])⟩

/-- First page of the skip mock: record a, declared total 3. -/
def wSkipFirst : Json :=
  .obj [("result", .obj [("dados", .obj [("relatorios", .arr [.str "a"])]),
    ("paginacao", .obj [("total", .num 3)])])]

/-- Its page 2: a result object without the dados key. -/
def wSkipPage2 : Json := .obj [("result", .obj [("foo", Json.null)])]

/-- The skip mock backend: pages 1 and 3 well formed, page 2 malformed. -/
def wHttpSkip : Request → Response := fun r =>
  match r.params with
  | some [("rows", _), ("page", Json.num 1)] => ⟨200, some wSkipFirst⟩
  | some [("rows", _), ("page", Json.num 2)] => ⟨200, some wSkipPage2⟩
  | some [("rows", _), ("page", Json.num 3)] => ⟨200, some (wPageBody [.str "d"])⟩
  | _ => ⟨404, none⟩

/-- Per-page contributions of the skip mock: page 2 contributes nothing. -/
def wSkipContrib : Int → List Json := fun p => if p = 3 then [.str "d"] else []

/-- A 200 response whose result key holds a number, not an object. -/
def cHttpNumResult : Request → Response := fun _ => ⟨200, some (.obj [("result", Json.num 5)])⟩

theorem pyBind_ok {α β : Type} (x : α) (f : α → Except PyError β) :
    (Except.ok x : Except PyError α) >>= f = f x := rfl

theorem pyBind_error {α β : Type} (e : PyError) (f : α → Except PyError β) :
    (Except.error e : Except PyError α) >>= f = Except.error e := rfl

theorem pyMap_ok {α β : Type} (f : α → β) (x : α) :
    (Except.ok x : Except PyError α).map f = Except.ok (f x) := rfl

theorem pyPure_eq {α : Type} (x : α) : (pure x : Except PyError α) = Except.ok x := rfl

theorem except_bind_ok {α β : Type} (x : α) (f : α → Except PyError β) :
    (Except.ok x : Except PyError α).bind f = f x := rfl

theorem except_bind_error {α β : Type} (e : PyError) (f : α → Except PyError β) :
    (Except.error e : Except PyError α).bind f = Except.error e := rfl

theorem lookup_dictSet_self (d : List (String × Json)) (k : String) (v : Json) :
    lookup? (dictSet d k v) k = some v := by
  induction d with
  | nil => simp [dictSet, lookup?]
  | cons p rest ih =>
    obtain ⟨k', v'⟩ := p
    by_cases h : k' = k
    · simp [dictSet, lookup?, h]
    · simp [dictSet, lookup?, h, ih]

theorem lookup_dictSet_ne (d : List (String × Json)) (k k' : String) (v : Json)
    (h : k' ≠ k) : lookup? (dictSet d k v) k' = lookup? d k' := by
  have hne : ¬ (k = k') := fun hh => h hh.symm
  induction d with
  | nil => simp [dictSet, lookup?, hne]
  | cons p rest ih =>
    obtain ⟨k0, v0⟩ := p
    by_cases h0 : k0 = k
    · subst h0
      simp [dictSet, lookup?, hne]
    · simp only [dictSet, if_neg h0, lookup?]
      by_cases h1 : k0 = k'
      · simp [if_pos h1]
      · simp [if_neg h1, ih]

theorem lookup_dictUpdate_not_mem (d kw : List (String × Json)) (k : String)
    (h : ¬ k ∈ kw.map Prod.fst) :
    lookup? (dictUpdate d kw) k = lookup? d k := by
  induction kw generalizing d with
  | nil => rfl
  | cons p rest ih =>
    obtain ⟨k0, v0⟩ := p
    simp only [List.map_cons, List.mem_cons, not_or] at h
    rw [show dictUpdate d ((k0, v0) :: rest) = dictUpdate (dictSet d k0 v0) rest from rfl]
    rw [ih (dictSet d k0 v0) h.2, lookup_dictSet_ne d k0 k v0 h.1]

theorem lookup_dictUpdate_of_mem (kw : List (String × Json)) (k : String) (v : Json) :
    ∀ d, (kw.map Prod.fst).Nodup → lookup? kw k = some v →
      lookup? (dictUpdate d kw) k = some v := by
  induction kw with
  | nil => intro d _ h; simp [lookup?] at h
  | cons p rest ih =>
    intro d hnd h
    obtain ⟨k0, v0⟩ := p
    simp only [List.map_cons, List.nodup_cons] at hnd
    rw [show dictUpdate d ((k0, v0) :: rest) = dictUpdate (dictSet d k0 v0) rest from rfl]
    by_cases hk : k0 = k
    · subst hk
      have hv : v0 = v := by simpa [lookup?] using h
      rw [lookup_dictUpdate_not_mem (dictSet d k0 v0) rest k0 hnd.1,
        lookup_dictSet_self, hv]
    · simp only [lookup?, if_neg hk] at h
      exact ih (dictSet d k0 v0) hnd.2 h

theorem eqStr_iff (v : Json) (s : String) : Json.eqStr v s = true ↔ v = .str s := by
  cases v <;> simp [Json.eqStr]

theorem raiseForStatus_ok (r : Response) (h : r.status < 400) :
    raiseForStatus r = .ok () := by
  have hne : ¬ (400 ≤ r.status ∧ r.status < 600) := by omega
  simp [raiseForStatus, hne]

theorem raiseForStatus_err (r : Response) (h1 : 400 ≤ r.status) (h2 : r.status < 600) :
    raiseForStatus r = .error (.httpError r.status) := by
  simp [raiseForStatus, h1, h2]

theorem make_request_of_returns (a : IdwallAuth) (http : Request → Response)
    (method endpoint : String) (data : Option Json)
    (params : Option (List (String × Json))) (body : Json)
    (h : Returns http (builtRequest a method endpoint data params) body) :
    make_request a http method endpoint data params =
      ([builtRequest a method endpoint data params], .ok body) := by
  obtain ⟨h1, h2, h3⟩ := h
  simp only [make_request, builtRequest] at h1 h2 h3 ⊢
  rw [raiseForStatus_ok _ (by omega)]
  simp [responseJson, h3, Except.bind]

theorem stepExtend_cases (acc : List Json) (body : Json) (recs : List Json)
    (h : WellFormedPage body recs ∨ (MalformedPage body ∧ recs = [])) :
    stepExtend (.arr acc) body = .ok (.arr (acc ++ recs)) := by
  rcases h with ⟨bl, rl, dl, rfl, h1, h2, h3⟩ | ⟨⟨bl, rfl, hcase⟩, rfl⟩
  · simp [stepExtend, Json.hasKey, Json.getKey, h1, h2, h3, Json.extendWith,
      pyExtendList, pyBind_ok, pyMap_ok, pyPure_eq]
  · rcases hcase with hnone | ⟨rl, hsome, hnone⟩
    · simp [stepExtend, Json.hasKey, hnone, pyBind_ok, pyPure_eq]
    · simp [stepExtend, Json.hasKey, Json.getKey, hsome, hnone, pyBind_ok, pyPure_eq]

theorem outerCheck_wf (body : Json) (N : Int) (recs : List Json)
    (h : WellFormedFirst body N recs) :
    outerCheck body = .ok (some (N, .arr recs)) := by
  obtain ⟨bl, rl, dl, pl, rfl, h1, h2, h3, h4, h5⟩ := h
  simp [outerCheck, Json.hasKey, Json.getKey, h1, h2, h3, h4, h5, pyInt, pyBind_ok,
    pyPure_eq]

theorem outerCheck_malformed (body : Json) (h : MalformedPage body) :
    outerCheck body = .ok none := by
  obtain ⟨bl, rfl, hcase⟩ := h
  rcases hcase with hnone | ⟨rl, hsome, hnone⟩
  · simp [outerCheck, Json.hasKey, hnone, pyBind_ok, pyPure_eq]
  · simp [outerCheck, Json.hasKey, Json.getKey, hsome, hnone, pyBind_ok, pyPure_eq]

theorem allReportsLoop_spec (base : String) (a : IdwallAuth)
    (http : Request → Response) (ident : String) (contrib : Int → List Json)
    (ps : List Int) :
    (∀ p ∈ ps, ∃ body, Returns http (detailRequest base a ident p) body ∧
      (WellFormedPage body (contrib p) ∨ (MalformedPage body ∧ contrib p = []))) →
    ∀ acc : List Json, allReportsLoop base a http ident ps (.arr acc) =
      (ps.map (detailRequest base a ident),
        .ok (.arr (acc ++ (ps.map contrib).flatten))) := by
  induction ps with
  | nil => intro _ acc; simp [allReportsLoop]
  | cons p rest ih =>
    intro h acc
    obtain ⟨body, hret, hcase⟩ := h p (List.mem_cons_self p rest)
    have hget : get_details base a http ident 25 p [] =
        ([detailRequest base a ident p], .ok body) :=
      make_request_of_returns a http "GET" (base ++ "/" ++ ident) none
        (some [("rows", .num 25), ("page", .num p)]) body hret
    have hstep := stepExtend_cases acc body (contrib p) hcase
    have hrest := ih (fun q hq => h q (List.mem_cons_of_mem p hq)) (acc ++ contrib p)
    simp only [allReportsLoop, hget, hstep, hrest]
    simp [List.append_assoc]

theorem all_reports_core_spec (base : String) (a : IdwallAuth)
    (http : Request → Response) (ident : String) (N : Int) (l1 : List Json)
    (contrib : Int → List Json) (pd : Json)
    (h1 : Returns http (detailRequest base a ident 1) pd)
    (h2 : WellFormedFirst pd N l1)
    (h3 : ∀ p ∈ pageRange N, ∃ body,
      Returns http (detailRequest base a ident p) body ∧
      (WellFormedPage body (contrib p) ∨ (MalformedPage body ∧ contrib p = []))) :
    all_reports_core base a http ident =
      (detailRequest base a ident 1 :: (pageRange N).map (detailRequest base a ident),
        .ok (.arr (l1 ++ ((pageRange N).map contrib).flatten))) := by
  have hget : get_details base a http ident 25 1 [] =
      ([detailRequest base a ident 1], .ok pd) :=
    make_request_of_returns a http "GET" (base ++ "/" ++ ident) none
      (some [("rows", .num 25), ("page", .num 1)]) pd h1
  have hout := outerCheck_wf pd N l1 h2
  have hloop := allReportsLoop_spec base a http ident contrib (pageRange N) h3 l1
  by_cases hN : N ≥ 2
  · simp [all_reports_core, hget, hout, hN, hloop]
  · have hpr : pageRange N = [] := by
      have : (N - 1).toNat = 0 := by omega
      simp [pageRange, this]
    simp [all_reports_core, hget, hout, hN, hpr]

theorem all_reports_core_malformed_first (base : String) (a : IdwallAuth)
    (http : Request → Response) (ident : String) (bad : Json)
    (h1 : Returns http (detailRequest base a ident 1) bad)
    (h2 : MalformedPage bad) :
    all_reports_core base a http ident =
      ([detailRequest base a ident 1], .error .nameError) := by
  have hget : get_details base a http ident 25 1 [] =
      ([detailRequest base a ident 1], .ok bad) :=
    make_request_of_returns a http "GET" (base ++ "/" ++ ident) none
      (some [("rows", .num 25), ("page", .num 1)]) bad h1
  have hout := outerCheck_malformed bad h2
  simp [all_reports_core, hget, hout]

theorem pageRange_mem (N p : Int) : p ∈ pageRange N ↔ 2 ≤ p ∧ p ≤ N := by
  simp only [pageRange, List.mem_map, List.mem_range, Int.ofNat_eq_coe]
  constructor
  · rintro ⟨i, hi, rfl⟩
    constructor
    · omega
    · omega
  · rintro ⟨h2, hN⟩
    refine ⟨(p - 2).toNat, ?_, ?_⟩
    · omega
    · omega

theorem make_request_of_httpError (a : IdwallAuth) (http : Request → Response)
    (method endpoint : String) (data : Option Json)
    (params : Option (List (String × Json)))
    (h1 : 400 ≤ (http (builtRequest a method endpoint data params)).status)
    (h2 : (http (builtRequest a method endpoint data params)).status < 600) :
    make_request a http method endpoint data params =
      ([builtRequest a method endpoint data params],
        .error (.httpError (http (builtRequest a method endpoint data params)).status)) := by
  have herr := raiseForStatus_err (http (builtRequest a method endpoint data params)) h1 h2
  simp only [make_request, builtRequest] at herr ⊢
  rw [herr]
  rfl

theorem pageRange_chain (N : Int) :
    List.Chain' (fun p q : Int => p < q) ((1 : Int) :: pageRange N) := by
  have hpair : List.Pairwise (fun p q : Int => p < q) ((1 : Int) :: pageRange N) := by
    refine List.pairwise_cons.mpr ⟨?_, ?_⟩
    · intro p hp
      have := (pageRange_mem N p).mp hp
      omega
    · rw [pageRange, List.pairwise_map]
      refine (List.pairwise_lt_range _).imp ?_
      intro i j hij
      show 2 + Int.ofNat i < 2 + Int.ofNat j
      simp only [Int.ofNat_eq_coe]
      omega
  exact hpair.chain'

/-- C1 (amended): for every valid (verb, relative path, body, params),
make_request sends exactly one request, to the fixed base URL joined with the
relative path, carrying the stored Content-Type/Authorization headers and the
given JSON body and query params; on a 2xx response with a JSON body it
returns the parsed body, and on any 4xx or 5xx status it raises the HTTPError
unchanged to the caller (no retry, no local recovery).  Statuses outside
400-599 are not raised by raise_for_status. -/
theorem make_request_contract (a : IdwallAuth) (http : Request → Response)
    (method endpoint : String) (data : Option Json)
    (params : Option (List (String × Json)))
    (_hval : plainRelative endpoint = true) :
    (make_request a http method endpoint data params).1 =
      [builtRequest a method endpoint data params] ∧
    (builtRequest a method endpoint data params).url = a.base_url ++ endpoint ∧
    (builtRequest a method endpoint data params).headers =
      [("Content-Type", "application/json"), ("Authorization", a.token)] ∧
    (builtRequest a method endpoint data params).body = data ∧
    (builtRequest a method endpoint data params).params = params ∧
    (∀ j, 200 ≤ (http (builtRequest a method endpoint data params)).status →
      (http (builtRequest a method endpoint data params)).status < 300 →
      (http (builtRequest a method endpoint data params)).jsonBody = some j →
      (make_request a http method endpoint data params).2 = .ok j) ∧
    (400 ≤ (http (builtRequest a method endpoint data params)).status →
      (http (builtRequest a method endpoint data params)).status < 600 →
      (make_request a http method endpoint data params).2 =
        .error (.httpError (http (builtRequest a method endpoint data params)).status)) := by
  refine ⟨rfl, rfl, rfl, rfl, rfl, ?_, ?_⟩
  · intro j hle hlt hj
    exact congrArg Prod.snd
      (make_request_of_returns a http method endpoint data params j ⟨hle, hlt, hj⟩)
  · intro hle hlt
    exact congrArg Prod.snd
      (make_request_of_httpError a http method endpoint data params hle hlt)

/-- Witness for C1 at concrete inputs: a 200 response returns the parsed
body, a 404 raises the HTTPError. -/
theorem make_request_contract_witness :
    (make_request wAuth wHttpOk "GET" "status" none none).2 = .ok (.obj []) ∧
    (make_request wAuth wHttp404 "GET" "status" none none).2 =
      .error (.httpError 404) := by
  have h := make_request_contract wAuth wHttpOk "GET" "status" none none (by decide)
  have h' := make_request_contract wAuth wHttp404 "GET" "status" none none (by decide)
  exact ⟨h.2.2.2.2.2.1 (.obj []) (by decide) (by decide) rfl,
    h'.2.2.2.2.2.2 (by decide) (by decide)⟩

/-- C1 counterexample: a 304 response — which is not a 2xx — is not raised:
the body is parsed and returned exactly as on success, refuting that every
non-2xx status raises the HTTP error. -/
theorem make_request_304_not_raised :
    (make_request wAuth cHttp304 "GET" "status" none none).2 = .ok (.str "cached") ∧
    (cHttp304 (builtRequest wAuth "GET" "status" none none)).status = 304 ∧
    ¬ (200 ≤ (cHttp304 (builtRequest wAuth "GET" "status" none none)).status ∧
       (cHttp304 (builtRequest wAuth "GET" "status" none none)).status < 300) :=
  ⟨rfl, rfl, by decide⟩

/-- C2: when the first detail page declares a total page count N, all_reports
issues exactly N requests — the first at the default page 1, then pages 2..N
sequentially in increasing order — and returns the concatenation of every
page's record list onto the first page's list, preserving record order; for
N < 2 it issues exactly one request and returns the first page's list.
Stated over the shared body all_reports_core; the final conjuncts pin
People.all_reports and Companies.all_reports as its pessoas and empresas
instances. -/
theorem all_reports_pagination (base : String) (a : IdwallAuth)
    (http : Request → Response) (ident : String) (pe : People) (co : Companies)
    (N : Int) (l1 : List Json) (ls : Int → List Json) (pd : Json)
    (h1 : Returns http (detailRequest base a ident 1) pd)
    (h2 : WellFormedFirst pd N l1)
    (h3 : ∀ p ∈ pageRange N, ∃ body,
      Returns http (detailRequest base a ident p) body ∧ WellFormedPage body (ls p)) :
    all_reports_core base a http ident =
      (detailRequest base a ident 1 :: (pageRange N).map (detailRequest base a ident),
        .ok (.arr (l1 ++ ((pageRange N).map ls).flatten))) ∧
    (1 ≤ N → (all_reports_core base a http ident).1.length = N.toNat) ∧
    List.Chain' (fun p q : Int => p < q) ((1 : Int) :: pageRange N) ∧
    (∀ p : Int, p ∈ pageRange N ↔ 2 ≤ p ∧ p ≤ N) ∧
    People.all_reports pe = all_reports_core "pessoas" pe.auth ∧
    Companies.all_reports co = all_reports_core "empresas" co.auth := by
  have hcore := all_reports_core_spec base a http ident N l1 ls pd h1 h2
    (fun p hp => let ⟨b, hr, hw⟩ := h3 p hp; ⟨b, hr, Or.inl hw⟩)
  refine ⟨hcore, ?_, pageRange_chain N, fun p => pageRange_mem N p, rfl, rfl⟩
  intro hN
  rw [hcore]
  simp only [List.length_cons, pageRange, List.length_map, List.length_range]
  omega

/-- Witness for C2: the 3-page mock issues requests for pages 1, 2, 3 in
order and returns the four records in their original order. -/
theorem all_reports_pagination_witness :
    People.all_reports wPeople wHttp3 "123" =
      ([detailRequest "pessoas" wAuth "123" 1, detailRequest "pessoas" wAuth "123" 2,
        detailRequest "pessoas" wAuth "123" 3],
       .ok (.arr [.str "a", .str "b", .str "c", .str "d"])) ∧
    (People.all_reports wPeople wHttp3 "123").1.length = 3 := by
  have h2 : WellFormedFirst wFirstBody 3 [Json.str "a", Json.str "b"] :=
    ⟨_, _, _, _, rfl, rfl, rfl, rfl, rfl, rfl⟩
  have h3 : ∀ p ∈ pageRange 3, ∃ body,
      Returns wHttp3 (detailRequest "pessoas" wAuth "123" p) body ∧
      WellFormedPage body (wContrib p) := by
    intro p hp
    have hmem : p = 2 ∨ p = 3 := by
      have := (pageRange_mem 3 p).mp hp
      omega
    rcases hmem with rfl | rfl
    · exact ⟨wPageBody [Json.str "c"], ⟨by decide, by decide, rfl⟩,
        ⟨_, _, _, rfl, rfl, rfl, rfl⟩⟩
    · exact ⟨wPageBody [Json.str "d"], ⟨by decide, by decide, rfl⟩,
        ⟨_, _, _, rfl, rfl, rfl, rfl⟩⟩
  have h := all_reports_pagination "pessoas" wAuth wHttp3 "123" wPeople wCompanies 3
    [Json.str "a", Json.str "b"] wContrib wFirstBody ⟨by decide, by decide, rfl⟩ h2 h3
  have hh : People.all_reports wPeople wHttp3 "123" =
      (detailRequest "pessoas" wAuth "123" 1 ::
        (pageRange 3).map (detailRequest "pessoas" wAuth "123"),
       .ok (.arr ([Json.str "a", Json.str "b"] ++
         ((pageRange 3).map wContrib).flatten))) := h.1
  exact ⟨hh.trans rfl, by rw [hh]; exact rfl⟩

/-- C3: create_report routes the document by string length: a 14-character
document is sent inside parametros under cnpj_numero, a document of any other
length under cpf_numero, in both cases mapped to the document itself. -/
theorem create_report_document_routing (rm : ReportManager)
    (http : Request → Response) (matriz doc : String) :
    (ReportManager.create_report rm http matriz (some doc) []).1 =
      [builtRequest rm.auth "POST" "relatorios"
        (some (.obj [("matriz", .str matriz),
          ("parametros",
            .obj [((if doc.length = 14 then "cnpj_numero" else "cpf_numero"),
              .str doc)])])) none] := by
  by_cases h : doc.length = 14 <;>
    simp [ReportManager.create_report, make_request, builtRequest, dictUpdate, h]

/-- C4: is_person_approved (and the identical is_company_approved) returns
True iff the first report's resultado equals the literal VALID and False for
every other value of that field, and raises an uncaught lookup error —
IndexError when the report list is empty, KeyError when an expected key is
absent. -/
theorem is_approved_spec (pe : People) (co : Companies)
    (hp hc : Request → Response) (cpf cnpj : String) (pdP pdC : Json)
    (h1 : Returns hp (detailRequest "pessoas" pe.auth cpf 1) pdP)
    (h2 : Returns hc (detailRequest "empresas" co.auth cnpj 1) pdC) :
    People.is_person_approved pe hp cpf =
      ([detailRequest "pessoas" pe.auth cpf 1], approvedFrom pdP) ∧
    Companies.is_company_approved co hc cnpj =
      ([detailRequest "empresas" co.auth cnpj 1], approvedFrom pdC) ∧
    (∀ body rel fl rest v, HasReports body rel → rel = .arr (.obj fl :: rest) →
      lookup? fl "resultado" = some v → approvedFrom body = .ok (v.eqStr "VALID")) ∧
    (∀ v s, Json.eqStr v s = true ↔ v = .str s) ∧
    (∀ body, HasReports body (.arr []) → approvedFrom body = .error .indexError) ∧
    (∀ body rel fl rest, HasReports body rel → rel = .arr (.obj fl :: rest) →
      lookup? fl "resultado" = none → approvedFrom body = .error .keyError) := by
  have hgP : People.get_person_details pe hp cpf 25 1 [] =
      ([detailRequest "pessoas" pe.auth cpf 1], .ok pdP) :=
    make_request_of_returns pe.auth hp "GET" ("pessoas" ++ "/" ++ cpf) none
      (some [("rows", .num 25), ("page", .num 1)]) pdP h1
  have hgC : Companies.get_company_details co hc cnpj 25 1 [] =
      ([detailRequest "empresas" co.auth cnpj 1], .ok pdC) :=
    make_request_of_returns co.auth hc "GET" ("empresas" ++ "/" ++ cnpj) none
      (some [("rows", .num 25), ("page", .num 1)]) pdC h2
  refine ⟨?_, ?_, ?_, fun v s => eqStr_iff v s, ?_, ?_⟩
  · simp [People.is_person_approved, hgP, except_bind_ok]
  · simp [Companies.is_company_approved, hgC, except_bind_ok]
  · rintro body rel fl rest v ⟨bl, rl, dl, rfl, hb1, hb2, hb3⟩ rfl hres
    simp [approvedFrom, Json.getKey, Json.getIdx, hb1, hb2, hb3, hres,
      pyBind_ok, pyPure_eq]
  · rintro body ⟨bl, rl, dl, rfl, hb1, hb2, hb3⟩
    simp [approvedFrom, Json.getKey, Json.getIdx, hb1, hb2, hb3,
      pyBind_ok, pyBind_error]
  · rintro body rel fl rest ⟨bl, rl, dl, rfl, hb1, hb2, hb3⟩ rfl hres
    simp [approvedFrom, Json.getKey, Json.getIdx, hb1, hb2, hb3, hres,
      pyBind_ok, pyBind_error]

/-- Witness for C4: resultado VALID gives True, INVALID gives False; an empty
report list gives IndexError, a first report without resultado gives
KeyError. -/
theorem is_approved_spec_witness :
    People.is_person_approved wPeople wHttpApproved "1" =
      ([detailRequest "pessoas" wAuth "1" 1], .ok true) ∧
    Companies.is_company_approved wCompanies wHttpRejected "2" =
      ([detailRequest "empresas" wAuth "2" 1], .ok false) ∧
    approvedFrom (wPageBody []) = .error .indexError ∧
    approvedFrom (wPageBody [.obj []]) = .error .keyError := by
  have h := is_approved_spec wPeople wCompanies wHttpApproved wHttpRejected "1" "2"
    (wDetails (.str "VALID")) (wDetails (.str "INVALID"))
    ⟨by decide, by decide, rfl⟩ ⟨by decide, by decide, rfl⟩
  refine ⟨h.1.trans rfl, h.2.1.trans rfl, ?_, ?_⟩
  · exact h.2.2.2.2.1 (wPageBody []) ⟨_, _, _, rfl, rfl, rfl, rfl⟩
  · exact h.2.2.2.2.2 (wPageBody [.obj []]) (.arr [.obj []]) [] []
      ⟨_, _, _, rfl, rfl, rfl, rfl⟩ rfl rfl

/-- C5 counterexample: when the FIRST page response is missing the expected
envelope keys, all_reports does not return a record list at all — the else
branch of the source references the unbound reports_list, raising NameError —
refuting that a malformed page is silently skipped regardless of which page
(including the first) is malformed. -/
theorem all_reports_malformed_first_raises :
    People.all_reports wPeople cHttpNoKeys "999" =
      ([detailRequest "pessoas" wAuth "999" 1], .error .nameError) := rfl

/-- C5 (amended): in all_reports, any page AFTER the first whose response is
missing the expected envelope keys is silently skipped: the helper still
returns a record list (short of the true history) with no error and no other
signal; but when the FIRST page is malformed the helper instead raises an
uncaught NameError (its fallback return references an unbound local).
People.all_reports and Companies.all_reports are the pessoas and empresas
instances of the shared body. -/
theorem all_reports_skip_malformed (base : String) (a : IdwallAuth)
    (http htq : Request → Response) (ident ident2 : String) (pe : People)
    (co : Companies) (N : Int) (l1 : List Json) (contrib : Int → List Json)
    (pd bad : Json)
    (h1 : Returns http (detailRequest base a ident 1) pd)
    (h2 : WellFormedFirst pd N l1)
    (h3 : ∀ p ∈ pageRange N, ∃ body,
      Returns http (detailRequest base a ident p) body ∧
      (WellFormedPage body (contrib p) ∨ (MalformedPage body ∧ contrib p = [])))
    (h4 : Returns htq (detailRequest base a ident2 1) bad)
    (h5 : MalformedPage bad) :
    all_reports_core base a http ident =
      (detailRequest base a ident 1 :: (pageRange N).map (detailRequest base a ident),
        .ok (.arr (l1 ++ ((pageRange N).map contrib).flatten))) ∧
    all_reports_core base a htq ident2 =
      ([detailRequest base a ident2 1], .error .nameError) ∧
    People.all_reports pe = all_reports_core "pessoas" pe.auth ∧
    Companies.all_reports co = all_reports_core "empresas" co.auth :=
  ⟨all_reports_core_spec base a http ident N l1 contrib pd h1 h2 h3,
   all_reports_core_malformed_first base a htq ident2 bad h4 h5, rfl, rfl⟩

/-- Witness for C5: page 2 of the skip mock is malformed and its records are
silently dropped (result short of the true history, no error); a malformed
first page raises NameError. -/
theorem all_reports_skip_malformed_witness :
    People.all_reports wPeople wHttpSkip "123" =
      ([detailRequest "pessoas" wAuth "123" 1, detailRequest "pessoas" wAuth "123" 2,
        detailRequest "pessoas" wAuth "123" 3],
       .ok (.arr [.str "a", .str "d"])) ∧
    People.all_reports wPeople cHttpNoKeys "777" =
      ([detailRequest "pessoas" wAuth "777" 1], .error .nameError) := by
  have h2 : WellFormedFirst wSkipFirst 3 [Json.str "a"] :=
    ⟨_, _, _, _, rfl, rfl, rfl, rfl, rfl, rfl⟩
  have h3 : ∀ p ∈ pageRange 3, ∃ body,
      Returns wHttpSkip (detailRequest "pessoas" wAuth "123" p) body ∧
      (WellFormedPage body (wSkipContrib p) ∨
        (MalformedPage body ∧ wSkipContrib p = [])) := by
    intro p hp
    have hmem : p = 2 ∨ p = 3 := by
      have := (pageRange_mem 3 p).mp hp
      omega
    rcases hmem with rfl | rfl
    · exact ⟨wSkipPage2, ⟨by decide, by decide, rfl⟩,
        Or.inr ⟨⟨_, rfl, Or.inr ⟨_, rfl, rfl⟩⟩, rfl⟩⟩
    · exact ⟨wPageBody [Json.str "d"], ⟨by decide, by decide, rfl⟩,
        Or.inl ⟨_, _, _, rfl, rfl, rfl, rfl⟩⟩
  have h := all_reports_skip_malformed "pessoas" wAuth wHttpSkip cHttpNoKeys
    "123" "777" wPeople wCompanies 3 [Json.str "a"] wSkipContrib wSkipFirst
    (.obj [("x", Json.null)]) ⟨by decide, by decide, rfl⟩ h2 h3
    ⟨by decide, by decide, rfl⟩ ⟨_, rfl, Or.inl rfl⟩
  have hh1 : People.all_reports wPeople wHttpSkip "123" =
      (detailRequest "pessoas" wAuth "123" 1 ::
        (pageRange 3).map (detailRequest "pessoas" wAuth "123"),
       .ok (.arr ([Json.str "a"] ++ ((pageRange 3).map wSkipContrib).flatten))) := h.1
  have hh2 : People.all_reports wPeople cHttpNoKeys "777" =
      ([detailRequest "pessoas" wAuth "777" 1], .error .nameError) := h.2.1
  exact ⟨hh1.trans rfl, hh2⟩

/-- C6 counterexample: with one extra kwarg, the body is not just
{matriz, parametros}: the kwarg cpf_nome also appears as a top-level key of
the body, refuting that the body has no other top-level keys. -/
theorem create_report_kwargs_leak :
    (ReportManager.create_report wRM wHttpOk "m1" (some "12345678901")
        [("cpf_nome", .str "X")]).1 =
      [builtRequest wAuth "POST" "relatorios"
        (some (.obj [("matriz", .str "m1"),
          ("parametros",
            .obj [("cpf_numero", .str "12345678901"), ("cpf_nome", .str "X")]),
          ("cpf_nome", .str "X")])) none] ∧
    lookup? [("matriz", Json.str "m1"),
      ("parametros",
        Json.obj [("cpf_numero", Json.str "12345678901"), ("cpf_nome", Json.str "X")]),
      ("cpf_nome", Json.str "X")] "cpf_nome" = some (.str "X") :=
  ⟨rfl, rfl⟩

/-- C6 (amended): the request body is {matriz, parametros: {document key,
...extra}} updated once more with the extra kwargs: every caller-supplied
kwarg is merged both into parametros and into the top level of the body, so
extra kwargs appear twice rather than only inside parametros. -/
theorem create_report_body (rm : ReportManager) (http : Request → Response)
    (matriz doc : String) (kwargs : List (String × Json)) :
    (ReportManager.create_report rm http matriz (some doc) kwargs).1 =
      [builtRequest rm.auth "POST" "relatorios"
        (some (.obj (dictUpdate
          [("matriz", .str matriz),
           ("parametros", .obj (dictUpdate
             (if doc.length = 14 then [("cnpj_numero", .str doc)]
              else [("cpf_numero", .str doc)]) kwargs))] kwargs))) none] ∧
    (∀ k v, (kwargs.map Prod.fst).Nodup → lookup? kwargs k = some v →
      lookup? (dictUpdate
        [("matriz", .str matriz),
         ("parametros", .obj (dictUpdate
           (if doc.length = 14 then [("cnpj_numero", .str doc)]
            else [("cpf_numero", .str doc)]) kwargs))] kwargs) k = some v) := by
  refine ⟨rfl, ?_⟩
  intro k v hnd hlk
  exact lookup_dictUpdate_of_mem kwargs k v _ hnd hlk

/-- Witness for C6: the extra kwarg cpf_nome lands at the top level of the
body as well as inside parametros. -/
theorem create_report_body_witness :
    (ReportManager.create_report wRM wHttpOk "m1" (some "12345678901")
        [("cpf_nome", .str "X")]).1 =
      [builtRequest wAuth "POST" "relatorios"
        (some (.obj [("matriz", .str "m1"),
          ("parametros",
            .obj [("cpf_numero", .str "12345678901"), ("cpf_nome", .str "X")]),
          ("cpf_nome", .str "X")])) none] ∧
    lookup? (dictUpdate [("matriz", Json.str "m1"),
        ("parametros", Json.obj (dictUpdate [("cpf_numero", Json.str "12345678901")]
          [("cpf_nome", Json.str "X")]))] [("cpf_nome", Json.str "X")]) "cpf_nome" =
      some (.str "X") := by
  have h := create_report_body wRM wHttpOk "m1" "12345678901"
    [("cpf_nome", Json.str "X")]
  exact ⟨h.1.trans rfl, h.2 "cpf_nome" (.str "X") (by simp) rfl⟩

/-- C7: calling create_report with the document absent or None reaches
len(document) and fails with an uncaught TypeError before any request is
sent: the request trace is empty. -/
theorem create_report_none_document (rm : ReportManager)
    (http : Request → Response) (matriz : String)
    (kwargs : List (String × Json)) :
    ReportManager.create_report rm http matriz none kwargs =
      ([], .error .typeError) := rfl

/-- C8: list_consulted_people requests the pessoas endpoint with query
parameters rows=size and page=page (the Python signature defaults are 25 and
1), then merges the caller kwargs verbatim with no key validation: a
caller-supplied rows or page key silently overrides the positional values,
while keys not supplied keep them. -/
theorem list_consulted_people_request (pe : People) (http : Request → Response)
    (size page : Int) (kwargs : List (String × Json)) :
    (People.list_consulted_people pe http size page kwargs).1 =
      [builtRequest pe.auth "GET" "pessoas" none
        (some (dictUpdate [("rows", .num size), ("page", .num page)] kwargs))] ∧
    (∀ k v, (kwargs.map Prod.fst).Nodup → lookup? kwargs k = some v →
      lookup? (dictUpdate [("rows", .num size), ("page", .num page)] kwargs) k =
        some v) ∧
    (∀ k, ¬ k ∈ kwargs.map Prod.fst →
      lookup? (dictUpdate [("rows", .num size), ("page", .num page)] kwargs) k =
        lookup? [("rows", .num size), ("page", .num page)] k) := by
  refine ⟨rfl, ?_, ?_⟩
  · intro k v hnd hlk
    exact lookup_dictUpdate_of_mem kwargs k v _ hnd hlk
  · intro k hk
    exact lookup_dictUpdate_not_mem _ kwargs k hk

/-- Witness for C8: size=10, page=2 yields the pessoas request with rows=10
and page=2; a caller-supplied rows key overrides the positional size. -/
theorem list_consulted_people_request_witness :
    (People.list_consulted_people wPeople wHttpOk 10 2 []).1 =
      [builtRequest wAuth "GET" "pessoas" none
        (some [("rows", .num 10), ("page", .num 2)])] ∧
    lookup? (dictUpdate [("rows", Json.num 10), ("page", Json.num 2)]
      [("rows", Json.num 99)]) "rows" = some (.num 99) := by
  have h0 := list_consulted_people_request wPeople wHttpOk 10 2 []
  have h1 := list_consulted_people_request wPeople wHttpOk 10 2
    [("rows", Json.num 99)]
  exact ⟨h0.1.trans rfl, h1.2.1 "rows" (.num 99) (by simp) rfl⟩

/-- C9: the read-only accessors hold no mutable state beyond the stored
fields: in explicit object-state-passing form each returns its object
unchanged, so two successive calls with the same arguments against the same
backend produce identical outputs. -/
theorem read_accessors_stateless (m : Matrices) (pe : People) (r : Reports)
    (http : Request → Response) (cpf : String) (size page : Int)
    (kwargs : List (String × Json)) :
    (Matrices.list_matrices_st m http).1 = m ∧
    (Matrices.list_matrices_st (Matrices.list_matrices_st m http).1 http).2 =
      (Matrices.list_matrices_st m http).2 ∧
    (People.get_person_details_st pe http cpf size page kwargs).1 = pe ∧
    (People.get_person_details_st
        (People.get_person_details_st pe http cpf size page kwargs).1
        http cpf size page kwargs).2 =
      (People.get_person_details_st pe http cpf size page kwargs).2 ∧
    (Reports.get_report_status_st r http).1 = r ∧
    (Reports.get_report_status_st (Reports.get_report_status_st r http).1 http).2 =
      (Reports.get_report_status_st r http).2 :=
  ⟨rfl, rfl, rfl, rfl, rfl, rfl⟩

/-- C10 counterexample: on the 2xx response {"result": 5} the nested status
field is absent, yet report_finished (and report_valid) does not return
False: the chained defaulted lookup raises AttributeError, refuting that the
helpers never raise on a structurally malformed 2xx response. -/
theorem report_helpers_raise_on_nonobject_result :
    (Reports.report_finished wReports cHttpNumResult).2 = .error .attributeError ∧
    (Reports.report_valid wReports cHttpNumResult).2 = .error .attributeError ∧
    (Reports.report_finished wReports cHttpNumResult).2 ≠ .ok false := by
  refine ⟨rfl, rfl, ?_⟩
  intro h
  have h' : (Except.error PyError.attributeError : Except PyError Bool) =
      .ok false := h
  exact Except.noConfusion h'

/-- C10 (amended): report_finished and report_valid never raise when the 2xx
response is an object whose result key is absent, or maps to an object that
lacks the status/resultado field — the defaulted lookups return False, so a
missing field is indistinguishable from a not-finished or not-valid report;
but when result maps to a non-object value the chained .get raises an
AttributeError. -/
theorem report_defaulted_lookups (self : Reports) (http : Request → Response)
    (bl : List (String × Json))
    (h1 : Returns http (builtRequest self.auth "GET"
      ("relatorios/" ++ self.report_id ++ "/dados") none none) (.obj bl)) :
    (lookup? bl "result" = none →
      (Reports.report_finished self http).2 = .ok false ∧
      (Reports.report_valid self http).2 = .ok false) ∧
    (∀ rl, lookup? bl "result" = some (.obj rl) →
      (lookup? rl "status" = none →
        (Reports.report_finished self http).2 = .ok false) ∧
      (lookup? rl "resultado" = none →
        (Reports.report_valid self http).2 = .ok false)) ∧
    (∀ j, lookup? bl "result" = some j → (∀ l, j ≠ .obj l) →
      (Reports.report_finished self http).2 = .error .attributeError ∧
      (Reports.report_valid self http).2 = .error .attributeError) := by
  have hd : Reports.report_data self http =
      ([builtRequest self.auth "GET" ("relatorios/" ++ self.report_id ++ "/dados")
        none none], .ok (.obj bl)) :=
    make_request_of_returns self.auth http "GET"
      ("relatorios/" ++ self.report_id ++ "/dados") none none (.obj bl) h1
  refine ⟨?_, ?_, ?_⟩
  · intro hnone
    constructor <;>
      simp [Reports.report_finished, Reports.report_valid, hd, Json.pyGet,
        Json.pyGetNone, hnone, Json.eqStr, lookup?, pyBind_ok, pyPure_eq]
  · intro rl hsome
    constructor
    · intro hnone
      simp [Reports.report_finished, hd, Json.pyGet, Json.pyGetNone, hsome,
        hnone, Json.eqStr, pyBind_ok, pyPure_eq]
    · intro hnone
      simp [Reports.report_valid, hd, Json.pyGet, Json.pyGetNone, hsome,
        hnone, Json.eqStr, pyBind_ok, pyPure_eq]
  · intro j hsome hnotobj
    cases j with
    | obj l => exact absurd rfl (hnotobj l)
    | null => constructor <;>
        simp [Reports.report_finished, Reports.report_valid, hd, Json.pyGet,
          Json.pyGetNone, hsome, pyBind_ok, pyBind_error]
    | bool b => constructor <;>
        simp [Reports.report_finished, Reports.report_valid, hd, Json.pyGet,
          Json.pyGetNone, hsome, pyBind_ok, pyBind_error]
    | num n => constructor <;>
        simp [Reports.report_finished, Reports.report_valid, hd, Json.pyGet,
          Json.pyGetNone, hsome, pyBind_ok, pyBind_error]
    | str s => constructor <;>
        simp [Reports.report_finished, Reports.report_valid, hd, Json.pyGet,
          Json.pyGetNone, hsome, pyBind_ok, pyBind_error]
    | arr xs => constructor <;>
        simp [Reports.report_finished, Reports.report_valid, hd, Json.pyGet,
          Json.pyGetNone, hsome, pyBind_ok, pyBind_error]

/-- Witness for C10: a 2xx response without the result key makes both helpers
return False. -/
theorem report_defaulted_lookups_witness :
    (Reports.report_finished wReports wHttpOk).2 = .ok false ∧
    (Reports.report_valid wReports wHttpOk).2 = .ok false := by
  have h := report_defaulted_lookups wReports wHttpOk []
    ⟨by decide, by decide, rfl⟩
  exact h.1 rfl

end Idwall
